import Mathlib

/-!
# Verification of the llama-swap-setup download orchestrator (`src/cli.py`)

Shallow embedding of the manifest model, schema validator, path derivation,
artifact fetcher (`_download_file`), per-entry downloader
(`download_model_files`) and the `download-models` command (`download_models`).

External effects are made explicit:
* the filesystem is a pair of association lists (files with byte content, and
  created directories);
* the network is a function from URL to an outcome (a status/body response, a
  connection that drops mid-stream, or a transport-level failure);
* a raised Python exception is `Except.error`, a normal return is `Except.ok`;
* transfer I/O and fetcher invocations are recorded in an event trace;
* `print` output is recorded in a list of strings.

File reading and JSON parsing of the manifest document are the external
loader collaborator: functions take the parsed `Json` document directly.
-/

set_option autoImplicit false

abbrev Bytes := List Nat

/-- Association lookup with decidable string equality (models Python `dict`
access; JSON objects after `json.loads` have distinct keys). -/
def assocLookup {α : Type} (kvs : List (String × α)) (k : String) : Option α :=
  match kvs with
  | [] => none
  | (k', v) :: rest => if k = k' then some v else assocLookup rest k

/-- Parsed JSON document (the output of `json.loads`). -/
inductive Json where
  | null : Json
  | bool (b : Bool) : Json
  | num (n : Int) : Json
  | str (s : String) : Json
  | arr (xs : List Json) : Json
  | obj (fields : List (String × Json)) : Json

/-- Filesystem state: file contents and the set of created directories. -/
structure FS where
  files : List (String × Bytes)
  dirs : List String
deriving DecidableEq

def lookupFile (fs : FS) (p : String) : Option Bytes :=
  assocLookup fs.files p

/-- `Path.exists()` / `os.path.exists`: true for files and directories. -/
def fsExists (fs : FS) (p : String) : Bool :=
  (lookupFile fs p).isSome || fs.dirs.contains p

/-- `open(p, 'wb')` + write: installs content at `p` (truncating any
previous content; the association list front entry wins). -/
def writeFile (fs : FS) (p : String) (b : Bytes) : FS :=
  ⟨(p, b) :: fs.files, fs.dirs⟩

/-- `Path.mkdir(parents=True, exist_ok=True)`: records the directory. -/
def mkdirp (fs : FS) (p : String) : FS :=
  if fs.dirs.contains p then fs else ⟨fs.files, p :: fs.dirs⟩

/-- Outcome of `requests.get(url, stream=True)` on a given URL. -/
inductive HttpOutcome where
  /-- A response with a status code, optional `content-length` header and a
  body delivered by `iter_content`. -/
  | response (status : Nat) (contentLength : Option Nat) (body : Bytes)
  /-- Connection established with a success status, but the transfer fails
  mid-stream after `bodyPart` bytes were delivered. -/
  | midStreamFailure (bodyPart : Bytes) (msg : String)
  /-- Transport-level failure at connection time (reset, timeout, DNS). -/
  | transportFailure (msg : String)

/-- Transfer/fetch events observable from outside. -/
inductive IOEvent where
  | netRequest (url : String)
  | localRead (path : String)
  | fileWrite (path : String)
  /-- The orchestrator invoking the fetcher `_download_file(url, destination)`. -/
  | fetchCall (url destination : String)
deriving DecidableEq

inductive ValKind where
  | missing
  | wrongType
  | invalidEnum
deriving DecidableEq

/-- One pydantic validation error: location and kind. -/
structure ValErr where
  loc : List String
  kind : ValKind
deriving DecidableEq

/-- Raised Python exceptions relevant to the embedded code. -/
inductive PyExc where
  | fileNotFound (path : String)
  | isADirectory (path : String)
  | notImplementedError (msg : String)
  | valueError (msg : String)
  | validationError (errs : List ValErr)
deriving DecidableEq

instance : DecidableEq (Except PyExc Unit) := fun a b =>
  match a, b with
  | Except.ok (), Except.ok () => isTrue rfl
  | Except.error x, Except.error y =>
      if h : x = y then isTrue (by rw [h])
      else isFalse (by intro hc; apply h; injection hc)
  | Except.ok (), Except.error _ => isFalse (by intro hc; exact Except.noConfusion hc)
  | Except.error _, Except.ok () => isFalse (by intro hc; exact Except.noConfusion hc)

/-- Result of running an effectful piece of the program: final filesystem,
normal return or raised exception, transfer-I/O trace, printed lines. -/
structure EffOut where
  fs : FS
  result : Except PyExc Unit
  trace : List IOEvent
  printed : List String
deriving DecidableEq

/-- `class ModelType(Enum)` (src/cli.py lines 20-22). -/
inductive ModelType where
  | gguf
  | safetensors
deriving DecidableEq

/-- `ModelType.value` (enum member value). -/
def ModelType.value : ModelType → String
  | ModelType.gguf => "gguf"
  | ModelType.safetensors => "safetensors"

/-- `class GGUFModelsConfig(BaseModelConfig)` (src/cli.py lines 31-37):
common fields plus `url` and optional `mmproj`; `model_type` defaults to
`ModelType.GGUF` but is a declared field and may be set by the manifest. -/
structure GGUFModelsConfig where
  name : String
  description : String
  runtime_kwargs : List (String × String)
  model_type : ModelType
  url : String
  mmproj : Option String
deriving DecidableEq

/-- `class SafetensorsModelsConfig(BaseModelConfig)` (src/cli.py lines 41-43). -/
structure SafetensorsModelsConfig where
  name : String
  description : String
  runtime_kwargs : List (String × String)
  model_type : ModelType
deriving DecidableEq

/-- The runtime argument of `download_model_files`
(`GGUFModelsConfig | SafetensorsModelsConfig`). -/
inductive ModelConfig where
  | gguf (c : GGUFModelsConfig)
  | safetensors (c : SafetensorsModelsConfig)
deriving DecidableEq

/-- `url.replace("file://", "")` on the character list: Python `str.replace`
removes every non-overlapping occurrence, left to right. -/
def dropScheme : List Char → List Char
  | 'f' :: 'i' :: 'l' :: 'e' :: ':' :: '/' :: '/' :: rest => dropScheme rest
  | c :: rest => c :: dropScheme rest
  | [] => []

/-- `str(url).startswith("file://")`. -/
def isFileUrl (url : String) : Bool :=
  match url.toList with
  | 'f' :: 'i' :: 'l' :: 'e' :: ':' :: '/' :: '/' :: _ => true
  | _ => false

/-- `pathlib` `/` operator: an absolute right operand replaces the base;
otherwise components are joined with a separator. -/
def pathJoin (base p : String) : String :=
  match p.toList with
  | '/' :: _ => p
  | _ => base ++ "/" ++ p

/-- Decimal digit to character. -/
def digitChar (d : Nat) : Char :=
  match d with
  | 0 => '0' | 1 => '1' | 2 => '2' | 3 => '3' | 4 => '4'
  | 5 => '5' | 6 => '6' | 7 => '7' | 8 => '8' | 9 => '9'
  | _ => '?'

/-- Decimal rendering with explicit fuel (structural, so it reduces). -/
def natCharsAux : Nat → Nat → List Char → List Char
  | 0, _, acc => acc
  | fuel + 1, n, acc =>
      if n < 10 then digitChar n :: acc
      else natCharsAux fuel (n / 10) (digitChar (n % 10) :: acc)

/-- Python `str(n)` for a natural number. -/
def natStr (n : Nat) : String := String.mk (natCharsAux (n + 1) n [])

/-- `get_models_directory` (src/cli.py lines 117-119):
`Path(os.getcwd()) / Path(os.getenv("MODELS_DIR", "models"))`. -/
def get_models_directory (env : List (String × String)) (cwd : String) : String :=
  pathJoin cwd ((assocLookup env "MODELS_DIR").getD "models")

/-- `_download_file(url, destination)` (src/cli.py lines 121-159).

* If the destination exists, log and return: no transfer I/O.
* `file://` URL: strip the scheme, copy bytes from the local path. When the
  source size is known and positive the copy is chunked under a progress bar,
  otherwise `shutil.copyfileobj` is used; both write the same bytes, so the
  model performs one write of the full content. A missing local source makes
  `open(local_path, 'rb')` raise `FileNotFoundError` (a directory raises
  `IsADirectoryError`); neither is a `requests.exceptions.RequestException`,
  so the `except` clause does not catch it and the exception propagates with
  no destination file created.
* Remote URL: `requests.get(url, stream=True)`; `raise_for_status` turns a
  status of 400 or more into an `HTTPError`. That error, a connection-time
  transport failure, and a mid-stream failure are all
  `requests.exceptions.RequestException`s: the `except` clause catches them,
  prints a message, and the function returns normally. A `content-length`
  header only selects the progress-bar branch; with or without it every
  delivered chunk is written, so the success case writes the whole body. -/
def _download_file (net : String → HttpOutcome) (fs : FS) (url destination : String) :
    EffOut :=
  if fsExists fs destination then
    ⟨fs, Except.ok (), [], []⟩
  else if isFileUrl url then
    let local_path := String.mk (dropScheme url.toList)
    match lookupFile fs local_path with
    | some content =>
        ⟨writeFile fs destination content, Except.ok (),
          [IOEvent.localRead local_path, IOEvent.fileWrite destination], []⟩
    | none =>
        if fs.dirs.contains local_path then
          ⟨fs, Except.error (PyExc.isADirectory local_path), [], []⟩
        else
          ⟨fs, Except.error (PyExc.fileNotFound local_path), [], []⟩
  else
    match net url with
    | HttpOutcome.transportFailure msg =>
        ⟨fs, Except.ok (), [IOEvent.netRequest url],
          ["Error downloading the file: " ++ msg]⟩
    | HttpOutcome.midStreamFailure bodyPart msg =>
        ⟨writeFile fs destination bodyPart, Except.ok (),
          [IOEvent.netRequest url, IOEvent.fileWrite destination],
          ["Error downloading the file: " ++ msg]⟩
    | HttpOutcome.response status _cl body =>
        if 400 ≤ status then
          ⟨fs, Except.ok (), [IOEvent.netRequest url],
            ["Error downloading the file: HTTP status " ++ natStr status]⟩
        else
          ⟨writeFile fs destination body, Except.ok (),
            [IOEvent.netRequest url, IOEvent.fileWrite destination], []⟩

/-- pydantic check of a required `str` field. -/
def validateStr (loc : List String) (j : Option Json) : List ValErr :=
  match j with
  | none => [⟨loc, ValKind.missing⟩]
  | some (Json.str _) => []
  | some _ => [⟨loc, ValKind.wrongType⟩]

/-- pydantic check of `runtime_kwargs : Dict[str, str]` with
`default_factory=dict`: absent is fine, otherwise an object whose values are
all strings. -/
def validateRuntimeKwargs (loc : List String) (j : Option Json) : List ValErr :=
  match j with
  | none => []
  | some (Json.obj kvs) =>
      (kvs.map (fun kv =>
        match kv.2 with
        | Json.str _ => ([] : List ValErr)
        | _ => [⟨loc ++ [kv.1], ValKind.wrongType⟩])).flatten
  | some _ => [⟨loc, ValKind.wrongType⟩]

/-- pydantic check of `model_type : ModelType` with a default: absent is
fine, otherwise the value must be one of the enum values. -/
def validateModelType (loc : List String) (j : Option Json) : List ValErr :=
  match j with
  | none => []
  | some (Json.str s) =>
      if s = "gguf" ∨ s = "safetensors" then [] else [⟨loc, ValKind.invalidEnum⟩]
  | some _ => [⟨loc, ValKind.invalidEnum⟩]

/-- pydantic check of `mmproj : Optional[str]` defaulting to `None`. -/
def validateOptStr (loc : List String) (j : Option Json) : List ValErr :=
  match j with
  | none => []
  | some Json.null => []
  | some (Json.str _) => []
  | some _ => [⟨loc, ValKind.wrongType⟩]

/-- pydantic validation of one `GGUFModelsConfig` element: all field
violations are collected, in field declaration order. -/
def validateGGUFModel (loc : List String) (j : Json) : List ValErr :=
  match j with
  | Json.obj kvs =>
      validateStr (loc ++ ["name"]) (assocLookup kvs "name")
      ++ validateStr (loc ++ ["description"]) (assocLookup kvs "description")
      ++ validateRuntimeKwargs (loc ++ ["runtime_kwargs"]) (assocLookup kvs "runtime_kwargs")
      ++ validateModelType (loc ++ ["model_type"]) (assocLookup kvs "model_type")
      ++ validateStr (loc ++ ["url"]) (assocLookup kvs "url")
      ++ validateOptStr (loc ++ ["mmproj"]) (assocLookup kvs "mmproj")
  | _ => [⟨loc, ValKind.wrongType⟩]

/-- pydantic validation of one `SafetensorsModelsConfig` element. -/
def validateSafetensorsModel (loc : List String) (j : Json) : List ValErr :=
  match j with
  | Json.obj kvs =>
      validateStr (loc ++ ["name"]) (assocLookup kvs "name")
      ++ validateStr (loc ++ ["description"]) (assocLookup kvs "description")
      ++ validateRuntimeKwargs (loc ++ ["runtime_kwargs"]) (assocLookup kvs "runtime_kwargs")
      ++ validateModelType (loc ++ ["model_type"]) (assocLookup kvs "model_type")
  | _ => [⟨loc, ValKind.wrongType⟩]

/-- Validates list elements in order, locating each by its index. -/
def validateListFrom (loc : List String) (f : List String → Json → List ValErr) :
    Nat → List Json → List ValErr
  | _, [] => []
  | i, x :: rest => f (loc ++ [natStr i]) x ++ validateListFrom loc f (i + 1) rest

/-- pydantic validation of a required `List[...]` field: every element is
validated and its errors are located by index. -/
def validateEntryList (loc : List String) (f : List String → Json → List ValErr)
    (j : Option Json) : List ValErr :=
  match j with
  | none => [⟨loc, ValKind.missing⟩]
  | some (Json.arr xs) => validateListFrom loc f 0 xs
  | some _ => [⟨loc, ValKind.wrongType⟩]

/-- pydantic validation of `ModelsConfig(**model_definitions)`
(src/cli.py lines 46-48, 56): the `ggufs` and `safetensors` collections are
required, each element is validated, and all errors are aggregated into one
`ValidationError`. There is no cross-entry or cross-family check: in
particular no name-uniqueness constraint exists anywhere in the model. -/
def validateModelsConfig (j : Json) : List ValErr :=
  match j with
  | Json.obj kvs =>
      validateEntryList ["ggufs"] validateGGUFModel (assocLookup kvs "ggufs")
      ++ validateEntryList ["safetensors"] validateSafetensorsModel (assocLookup kvs "safetensors")
  | _ => [⟨[], ValKind.wrongType⟩]

/-- `_load_and_validate_models` (src/cli.py lines 51-62), minus the file
read and `json.loads` (external loader): validate the parsed document, raise
`ValidationError` if any constraint fails, otherwise return normally (the
caller keeps using the raw document). -/
def _load_and_validate_models (raw : Json) : Except PyExc Unit :=
  match validateModelsConfig raw with
  | [] => Except.ok ()
  | errs => Except.error (PyExc.validationError errs)

/-- Reads a required string field for `GGUFModelsConfig(**model)`. -/
def parseStrField (kvs : List (String × Json)) (k : String) : Option String :=
  match assocLookup kvs k with
  | some (Json.str s) => some s
  | _ => none

/-- Reads `runtime_kwargs` applying the `default_factory=dict` default. -/
def parseRuntimeKwargs (kvs : List (String × Json)) : Option (List (String × String)) :=
  match assocLookup kvs "runtime_kwargs" with
  | none => some []
  | some (Json.obj m) =>
      m.mapM (fun kv =>
        match kv.2 with
        | Json.str s => some (kv.1, s)
        | _ => none)
  | some _ => none

/-- Reads `model_type` applying the `ModelType.GGUF` default; the enum is
validated by value. -/
def parseModelType (kvs : List (String × Json)) : Option ModelType :=
  match assocLookup kvs "model_type" with
  | none => some ModelType.gguf
  | some (Json.str "gguf") => some ModelType.gguf
  | some (Json.str "safetensors") => some ModelType.safetensors
  | some _ => none

/-- Reads `mmproj` applying the `None` default. -/
def parseMmproj (kvs : List (String × Json)) : Option (Option String) :=
  match assocLookup kvs "mmproj" with
  | none => some none
  | some Json.null => some none
  | some (Json.str s) => some (some s)
  | some _ => none

/-- `GGUFModelsConfig(**model)` (src/cli.py line 189): pydantic parse of one
raw entry; `none` stands for a raised `ValidationError` (which cannot occur
for elements of a manifest that already passed `_load_and_validate_models`). -/
def parseGGUF (j : Json) : Option GGUFModelsConfig :=
  match j with
  | Json.obj kvs => do
      let name ← parseStrField kvs "name"
      let description ← parseStrField kvs "description"
      let rk ← parseRuntimeKwargs kvs
      let mt ← parseModelType kvs
      let url ← parseStrField kvs "url"
      let mm ← parseMmproj kvs
      some ⟨name, description, rk, mt, url, mm⟩
  | _ => none

/-- `download_model_files(model)` (src/cli.py lines 161-178).

For a `GGUFModelsConfig`: derive
`<models_directory>/<model_type.value>/<name>`, create it, fetch the primary
artifact to `<name>.gguf` inside it, and, when `mmproj` is set, fetch the
auxiliary artifact to `mmproj_<name>.gguf`. A fetcher invocation is recorded
as a `fetchCall` event in front of the fetcher's own transfer events. If the
primary fetch raises, the exception propagates and the auxiliary fetch is
never reached; a fetch that merely prints a caught error returns normally,
so execution continues.

For a `SafetensorsModelsConfig`: derive
`<models_directory>/<model_type.value>` (no per-name component), create it,
then raise `NotImplementedError`.

The Python `else: raise ValueError(...)` branch is unreachable here because
`ModelConfig` has exactly the two constructors of the union type. -/
def download_model_files (net : String → HttpOutcome) (env : List (String × String))
    (cwd : String) (fs : FS) (model : ModelConfig) : EffOut :=
  let models_directory := get_models_directory env cwd
  match model with
  | ModelConfig.gguf c =>
      let model_directory := pathJoin (pathJoin models_directory c.model_type.value) c.name
      let fs1 := mkdirp fs model_directory
      let destPrimary := pathJoin model_directory (c.name ++ ".gguf")
      let o1 := _download_file net fs1 c.url destPrimary
      match o1.result with
      | Except.error e =>
          ⟨o1.fs, Except.error e, IOEvent.fetchCall c.url destPrimary :: o1.trace, o1.printed⟩
      | Except.ok _ =>
          match c.mmproj with
          | some m =>
              let destAux := pathJoin model_directory ("mmproj_" ++ c.name ++ ".gguf")
              let o2 := _download_file net o1.fs m destAux
              ⟨o2.fs, o2.result,
                IOEvent.fetchCall c.url destPrimary :: o1.trace
                  ++ (IOEvent.fetchCall m destAux :: o2.trace),
                o1.printed ++ o2.printed⟩
          | none =>
              ⟨o1.fs, Except.ok (), IOEvent.fetchCall c.url destPrimary :: o1.trace, o1.printed⟩
  | ModelConfig.safetensors c =>
      let model_directory := pathJoin models_directory c.model_type.value
      let fs1 := mkdirp fs model_directory
      ⟨fs1,
        Except.error (PyExc.notImplementedError
          "Downloading safetensors models at runtime is not yet supported."),
        [], []⟩

/-- `models_definition.get("ggufs", [])` (src/cli.py line 188). After
successful validation "ggufs" is present and is an array; the other branches
return the empty iteration for completeness. -/
def getGgufsList (raw : Json) : List Json :=
  match raw with
  | Json.obj kvs =>
      match assocLookup kvs "ggufs" with
      | some (Json.arr xs) => xs
      | _ => []
  | _ => []

/-- The `for model in ...: parsed_model = GGUFModelsConfig(**model);
download_model_files(parsed_model)` loop of `download_models`
(src/cli.py lines 188-190): entries are processed strictly sequentially and
a raised exception aborts the loop and propagates. -/
def download_models_loop (net : String → HttpOutcome) (env : List (String × String))
    (cwd : String) : FS → List Json → EffOut
  | fs, [] => ⟨fs, Except.ok (), [], []⟩
  | fs, j :: rest =>
      match parseGGUF j with
      | none =>
          -- `GGUFModelsConfig(**model)` raises; unreachable after validation.
          ⟨fs, Except.error (PyExc.validationError []), [], []⟩
      | some c =>
          let o := download_model_files net env cwd fs (ModelConfig.gguf c)
          match o.result with
          | Except.error e => ⟨o.fs, Except.error e, o.trace, o.printed⟩
          | Except.ok _ =>
              let o2 := download_models_loop net env cwd o.fs rest
              ⟨o2.fs, o2.result, o.trace ++ o2.trace, o.printed ++ o2.printed⟩

/-- The `download-models` command (src/cli.py lines 181-190): validate the
manifest document, then download every entry of the `ggufs` collection.
`models_file` only selects the document (its parsed content is `raw`; the
file read and `json.loads` belong to the external loader); `models_dir` and
`overwrite` are accepted by the CLI but never read in the body. The
`safetensors` collection is validated but never iterated. -/
def download_models (net : String → HttpOutcome) (env : List (String × String))
    (cwd : String) (fs : FS) (models_file models_dir : String) (overwrite : Bool)
    (raw : Json) : EffOut :=
  match _load_and_validate_models raw with
  | Except.error e => ⟨fs, Except.error e, [], []⟩
  | Except.ok _ => download_models_loop net env cwd fs (getGgufsList raw)

/-! ## Concrete fixtures used by counterexamples and witnesses -/

def emptyFS : FS := ⟨[], []⟩

/-- A server answering every request with status 404 and an empty body. -/
def net404 : String → HttpOutcome := fun _ => HttpOutcome.response 404 none []

/-- A server answering every request with status 200 and a three-byte body. -/
def netOk3 : String → HttpOutcome := fun _ => HttpOutcome.response 200 (some 3) [1, 2, 3]

/-- A network on which every connection attempt fails at transport level. -/
def netReset : String → HttpOutcome := fun _ => HttpOutcome.transportFailure "connection reset"

/-- A network where the primary artifact's host resets the connection while
the auxiliary artifact's URL serves a one-byte body. -/
def netSplit : String → HttpOutcome := fun u =>
  if u = "http://host/primary.gguf" then HttpOutcome.transportFailure "connection reset"
  else HttpOutcome.response 200 (some 1) [7]

/-- A quantized entry with both a primary and an auxiliary locator. -/
def entryWithAux : GGUFModelsConfig :=
  ⟨"m", "demo", [], ModelType.gguf, "http://host/primary.gguf", some "http://host/aux.gguf"⟩

/-- A quantized entry whose primary locator is a missing local file and
which also carries an auxiliary locator. -/
def entryMissingSrc : GGUFModelsConfig :=
  ⟨"m", "demo", [], ModelType.gguf, "file:///missing.gguf", some "http://host/aux.gguf"⟩

/-- A filesystem holding one local fixture file of two bytes. -/
def fixtureFS : FS := ⟨[("/fixtures/model.gguf", [9, 9])], []⟩

/-- A filesystem whose fixture content is abstract. -/
def fixtureFSWith (bs : Bytes) : FS := ⟨[("/fixtures/model.gguf", bs)], []⟩

/-- A manifest document with one quantized entry (sourced from the local
fixture file) and one tensor-weights entry. -/
def mkRawManifest (nm ds stn std : String) : Json :=
  Json.obj
    [("ggufs", Json.arr
        [Json.obj [("name", Json.str nm), ("description", Json.str ds),
          ("url", Json.str "file:///fixtures/model.gguf")]]),
     ("safetensors", Json.arr
        [Json.obj [("name", Json.str stn), ("description", Json.str std)]])]

def rawOneOfEach : Json := mkRawManifest "alpha" "test model" "beta" "tensor weights"

/-- A manifest in which two quantized entries and one tensor-weights entry
all share one name: duplicates inside one family and across families. -/
def mkRawDupNames (nm d1 d2 d3 u1 u2 : String) : Json :=
  Json.obj
    [("ggufs", Json.arr
        [Json.obj [("name", Json.str nm), ("description", Json.str d1), ("url", Json.str u1)],
         Json.obj [("name", Json.str nm), ("description", Json.str d2), ("url", Json.str u2)]]),
     ("safetensors", Json.arr
        [Json.obj [("name", Json.str nm), ("description", Json.str d3)]])]

def rawDupNames : Json := mkRawDupNames "dup" "a" "b" "c" "http://host/a" "http://host/b"

/-- A manifest with three independent field violations across distinct
fields: `ggufs[0]` misses `url`, `ggufs[1]` carries an unrecognized
`model_type` enum value, `safetensors[0]` misses `description`. -/
def mkRawViolations (nm1 ds nm2 u2 nm3 : String) : Json :=
  Json.obj
    [("ggufs", Json.arr
        [Json.obj [("name", Json.str nm1), ("description", Json.str ds)],
         Json.obj [("name", Json.str nm2), ("description", Json.str ds),
           ("url", Json.str u2), ("model_type", Json.str "tensorrt")]]),
     ("safetensors", Json.arr [Json.obj [("name", Json.str nm3)]])]

/-- A manifest with two independent violations: `ggufs[0]` misses `url`,
and the two entries (one per family) share the name `dup`. -/
def rawMissingUrlAndDup : Json :=
  Json.obj
    [("ggufs", Json.arr
        [Json.obj [("name", Json.str "dup"), ("description", Json.str "d")]]),
     ("safetensors", Json.arr
        [Json.obj [("name", Json.str "dup"), ("description", Json.str "d")]])]

/-! ## Helper lemmas about the fetcher -/

/-- Existence short-circuit of `_download_file`: nothing happens. -/
theorem download_file_skip (net : String → HttpOutcome) (fs : FS) (url dest : String)
    (h : fsExists fs dest = true) :
    _download_file net fs url dest = ⟨fs, Except.ok (), [], []⟩ := by
  unfold _download_file
  rw [if_pos h]

/-- Successful local copy branch of `_download_file`. -/
theorem download_file_local (net : String → HttpOutcome) (fs : FS) (url dest : String)
    (content : Bytes)
    (h1 : fsExists fs dest = false) (h2 : isFileUrl url = true)
    (h3 : lookupFile fs (String.mk (dropScheme url.toList)) = some content) :
    _download_file net fs url dest =
      ⟨writeFile fs dest content, Except.ok (),
        [IOEvent.localRead (String.mk (dropScheme url.toList)), IOEvent.fileWrite dest], []⟩ := by
  simp only [_download_file, h1, h2, h3]
  simp

/-- Missing local source branch of `_download_file`: `FileNotFoundError`
propagates, filesystem untouched. -/
theorem download_file_source_missing (net : String → HttpOutcome) (fs : FS) (url dest : String)
    (h1 : fsExists fs dest = false) (h2 : isFileUrl url = true)
    (h3 : lookupFile fs (String.mk (dropScheme url.toList)) = none)
    (h4 : fs.dirs.contains (String.mk (dropScheme url.toList)) = false) :
    _download_file net fs url dest =
      ⟨fs, Except.error (PyExc.fileNotFound (String.mk (dropScheme url.toList))), [], []⟩ := by
  simp only [_download_file, h1, h2, h3, h4]
  simp

/-- Caught transport failure branch of `_download_file`: the error is
printed and the function returns normally with no file written. -/
theorem download_file_transport (net : String → HttpOutcome) (fs : FS) (url dest msg : String)
    (h1 : fsExists fs dest = false) (h2 : isFileUrl url = false)
    (h3 : net url = HttpOutcome.transportFailure msg) :
    _download_file net fs url dest =
      ⟨fs, Except.ok (), [IOEvent.netRequest url],
        ["Error downloading the file: " ++ msg]⟩ := by
  simp only [_download_file, h1, h2, h3]
  simp

/-- `_download_file` never creates or removes directories. -/
theorem download_file_dirs (net : String → HttpOutcome) (fs : FS) (url dest : String) :
    (_download_file net fs url dest).fs.dirs = fs.dirs := by
  unfold _download_file
  dsimp only
  repeat' split
  all_goals rfl

/-- Looking up a path after `writeFile`. -/
theorem lookupFile_writeFile (fs : FS) (d p : String) (b : Bytes) :
    lookupFile (writeFile fs d b) p = if p = d then some b else lookupFile fs p := rfl

/-- `_download_file` never removes or rewrites an existing file: it writes
only at a destination that did not exist. -/
theorem download_file_keeps_file (net : String → HttpOutcome) (fs : FS) (url dest p : String)
    (content : Bytes) (h : lookupFile fs p = some content) :
    lookupFile (_download_file net fs url dest).fs p = some content := by
  unfold _download_file
  split
  · exact h
  · next hex =>
    have hdest : lookupFile fs dest = none := by
      rw [Bool.not_eq_true] at hex
      unfold fsExists at hex
      cases hl : lookupFile fs dest with
      | none => rfl
      | some c => rw [hl] at hex; simp at hex
    have hpd : p ≠ dest := by
      intro heq
      rw [heq, hdest] at h
      exact Option.noConfusion h
    dsimp only
    repeat' split
    all_goals simp [lookupFile_writeFile, hpd, h]

/-- The path just created by `mkdirp` is among the directories. -/
theorem mem_mkdirp (fs : FS) (p : String) : p ∈ (mkdirp fs p).dirs := by
  unfold mkdirp
  split
  · next h => exact List.mem_of_elem_eq_true h
  · exact List.mem_cons_self p _


/-! ## Claim C2 -/

/-- Claim C2 (amended): if a file already exists at the destination path the
fetch performs no network or file transfer I/O and returns success
unchanged; consequently, whenever the first call leaves a file at the
destination (in particular whenever it succeeds), the second call with the
same locator and destination performs no transfer I/O and the destination's
content after it equals its content after the first call. -/
theorem C2_existing_destination_noop (net : String → HttpOutcome) (fs : FS)
    (url dest : String) :
    (fsExists fs dest = true → _download_file net fs url dest = ⟨fs, Except.ok (), [], []⟩)
    ∧ (fsExists (_download_file net fs url dest).fs dest = true →
        _download_file net (_download_file net fs url dest).fs url dest
          = ⟨(_download_file net fs url dest).fs, Except.ok (), [], []⟩) :=
  ⟨fun h => download_file_skip net fs url dest h,
   fun h => download_file_skip net (_download_file net fs url dest).fs url dest h⟩

/-- Witness for C2: after a successful first remote fetch the destination
exists, and the second call is exactly the success no-op. -/
theorem C2_witness :
    fsExists (_download_file netOk3 emptyFS "http://host/a.gguf" "/w/a.gguf").fs "/w/a.gguf" = true
    ∧ _download_file netOk3 (_download_file netOk3 emptyFS "http://host/a.gguf" "/w/a.gguf").fs
        "http://host/a.gguf" "/w/a.gguf"
      = ⟨(_download_file netOk3 emptyFS "http://host/a.gguf" "/w/a.gguf").fs,
          Except.ok (), [], []⟩ :=
  ⟨by decide,
   (C2_existing_destination_noop netOk3 emptyFS "http://host/a.gguf" "/w/a.gguf").2 (by decide)⟩

/-- Counterexample to C2 as stated: when the first call fails without
writing a destination file (HTTP 404 here), the second call with the same
locator and destination performs network I/O again, so transfer I/O is not
confined to the first call. -/
theorem C2_counterexample :
    (_download_file net404 emptyFS "http://host/a.gguf" "/w/a.gguf").trace
        = [IOEvent.netRequest "http://host/a.gguf"]
    ∧ (_download_file net404 (_download_file net404 emptyFS "http://host/a.gguf" "/w/a.gguf").fs
        "http://host/a.gguf" "/w/a.gguf").trace
        = [IOEvent.netRequest "http://host/a.gguf"] := by decide

/-! ## Claim C4 -/

/-- Claim C4 (amended): a transport-level failure on a remote fetch is
caught inside the fetcher and does not propagate as an exception; but it is
not reported to the caller as an error result either: the fetcher prints
the message and returns normally (the same return as a success), so the
orchestrator receives no failure signal to decide on. -/
theorem C4_transport_failure_swallowed (net : String → HttpOutcome) (fs : FS)
    (url dest msg : String)
    (h1 : fsExists fs dest = false) (h2 : isFileUrl url = false)
    (h3 : net url = HttpOutcome.transportFailure msg) :
    _download_file net fs url dest
      = ⟨fs, Except.ok (), [IOEvent.netRequest url],
          ["Error downloading the file: " ++ msg]⟩ :=
  download_file_transport net fs url dest msg h1 h2 h3

/-- Witness for C4 at a concrete transport failure. -/
theorem C4_witness :
    _download_file netReset emptyFS "http://host/a.gguf" "/w/a.gguf"
      = ⟨emptyFS, Except.ok (), [IOEvent.netRequest "http://host/a.gguf"],
          ["Error downloading the file: connection reset"]⟩ :=
  C4_transport_failure_swallowed netReset emptyFS "http://host/a.gguf" "/w/a.gguf"
    "connection reset" (by decide) (by decide) rfl

/-- Counterexample to C4 as stated: a transport-failing fetch returns the
very same caller-visible result as a successful fetch (a normal return), so
no FetchError(Transport) is reported to the caller; the failure is only
printed. -/
theorem C4_counterexample :
    (_download_file netReset emptyFS "http://host/a.gguf" "/w/a.gguf").result = Except.ok ()
    ∧ (_download_file netReset emptyFS "http://host/a.gguf" "/w/a.gguf").result
        = (_download_file netOk3 emptyFS "http://host/a.gguf" "/w/a.gguf").result
    ∧ (_download_file netReset emptyFS "http://host/a.gguf" "/w/a.gguf").printed
        = ["Error downloading the file: connection reset"] := by decide

/-! ## Claim C5 -/

/-- Claim C5 (confirmed): a fetch whose locator uses the `file://` scheme
and refers to a non-existent local path fails with the missing-source error
(`FileNotFoundError`, the code's FetchError(SourceNotFound)) and leaves the
filesystem unchanged: no file is created at the destination path. -/
theorem C5_missing_local_source (net : String → HttpOutcome) (fs : FS) (url dest : String)
    (h1 : fsExists fs dest = false) (h2 : isFileUrl url = true)
    (h3 : lookupFile fs (String.mk (dropScheme url.toList)) = none)
    (h4 : fs.dirs.contains (String.mk (dropScheme url.toList)) = false) :
    _download_file net fs url dest
      = ⟨fs, Except.error (PyExc.fileNotFound (String.mk (dropScheme url.toList))), [], []⟩ :=
  download_file_source_missing net fs url dest h1 h2 h3 h4

/-- Witness for C5 at a concrete missing local source. -/
theorem C5_witness :
    _download_file netOk3 emptyFS "file:///missing.gguf" "/w/x.gguf"
      = ⟨emptyFS, Except.error (PyExc.fileNotFound "/missing.gguf"), [], []⟩ :=
  C5_missing_local_source netOk3 emptyFS "file:///missing.gguf" "/w/x.gguf"
    (by decide) (by decide) (by decide) (by decide)

/-! ## Claim C3 -/

/-- Claim C3 (amended): validation checks only per-field constraints and
performs no name-uniqueness check at all: a manifest whose entries share a
name — inside one family and across families — passes validation whenever
its fields are otherwise valid. -/
theorem C3_duplicate_names_accepted (nm d1 d2 d3 u1 u2 : String) :
    _load_and_validate_models (mkRawDupNames nm d1 d2 d3 u1 u2) = Except.ok () := rfl

/-- Counterexample to C3 as stated: a concrete manifest in which two
quantized entries and one tensor-weights entry all share the name `dup`
validates successfully instead of failing with a duplicate-name violation. -/
theorem C3_counterexample :
    _load_and_validate_models rawDupNames = Except.ok ()
    ∧ validateModelsConfig rawDupNames = [] := by decide

/-! ## Claim C7 -/

/-- Claim C7 (amended): validation is total over field-level constraints:
a manifest with independent violations among missing required field, wrong
type and unrecognized enum value across distinct fields yields one report
naming all of them (here three: a missing `url`, an unrecognized
`model_type` value, and a missing `description`), not just the first.
Duplicate names, however, are not a constraint: they are never reported. -/
theorem C7_field_violations_aggregated (nm1 ds nm2 u2 nm3 : String) :
    validateModelsConfig (mkRawViolations nm1 ds nm2 u2 nm3)
      = [⟨["ggufs", "0", "url"], ValKind.missing⟩,
         ⟨["ggufs", "1", "model_type"], ValKind.invalidEnum⟩,
         ⟨["safetensors", "0", "description"], ValKind.missing⟩] := by rfl

/-- Counterexample to C7 as stated: a manifest with two independent
violations in the claim's list — a missing `url` and a duplicate name across
families — yields a report naming only one of them: the duplicate name is
not a violation the validator knows. -/
theorem C7_counterexample :
    validateModelsConfig rawMissingUrlAndDup = [⟨["ggufs", "0", "url"], ValKind.missing⟩] := by
  decide

/-! ## Claim C6 -/

/-- Claim C6 (confirmed): path derivation is a pure, deterministic function
of the models root and the entry. For a quantized entry the created
directory is `<modelsRoot>/<family-tag>/<name>` and the first fetcher
invocation targets `<name>.gguf` inside it; when an auxiliary locator is
present (and the primary fetch returned normally) the auxiliary fetcher
invocation targets exactly `mmproj_<name>.gguf` in the same directory. For
a tensor-weights entry the outcome is built from
`<modelsRoot>/<family-tag>` alone, with no per-name subdirectory. -/
theorem C6_path_resolution (net : String → HttpOutcome) (env : List (String × String))
    (cwd : String) (fs : FS) (c : GGUFModelsConfig) :
    pathJoin (pathJoin (get_models_directory env cwd) c.model_type.value) c.name
      ∈ (download_model_files net env cwd fs (ModelConfig.gguf c)).fs.dirs
    ∧ (download_model_files net env cwd fs (ModelConfig.gguf c)).trace.head?
        = some (IOEvent.fetchCall c.url
            (pathJoin
              (pathJoin (pathJoin (get_models_directory env cwd) c.model_type.value) c.name)
              (c.name ++ ".gguf")))
    ∧ (∀ (m : String), c.mmproj = some m →
        (_download_file net
            (mkdirp fs
              (pathJoin (pathJoin (get_models_directory env cwd) c.model_type.value) c.name))
            c.url
            (pathJoin
              (pathJoin (pathJoin (get_models_directory env cwd) c.model_type.value) c.name)
              (c.name ++ ".gguf"))).result = Except.ok () →
        IOEvent.fetchCall m
            (pathJoin
              (pathJoin (pathJoin (get_models_directory env cwd) c.model_type.value) c.name)
              ("mmproj_" ++ c.name ++ ".gguf"))
          ∈ (download_model_files net env cwd fs (ModelConfig.gguf c)).trace)
    ∧ ∀ (s : SafetensorsModelsConfig),
        download_model_files net env cwd fs (ModelConfig.safetensors s)
          = ⟨mkdirp fs (pathJoin (get_models_directory env cwd) s.model_type.value),
              Except.error (PyExc.notImplementedError
                "Downloading safetensors models at runtime is not yet supported."),
              [], []⟩ := by
  refine ⟨?_, ?_, ?_, ?_⟩
  · unfold download_model_files
    dsimp only
    repeat' split
    all_goals simp only [download_file_dirs]
    all_goals exact mem_mkdirp fs _
  · unfold download_model_files
    dsimp only
    repeat' split
    all_goals rfl
  · intro m hm hok
    unfold download_model_files
    dsimp only
    rw [hok, hm]
    simp
  · intro s
    rfl

/-- Witness for C6: for a concrete entry with an auxiliary locator whose
primary fetch succeeds, the auxiliary fetcher invocation targets exactly
`mmproj_<name>.gguf` in `<modelsRoot>/gguf/<name>`. -/
theorem C6_witness :
    IOEvent.fetchCall "http://host/aux.gguf" "/w/models/gguf/m/mmproj_m.gguf"
      ∈ (download_model_files netOk3 [] "/w" emptyFS (ModelConfig.gguf entryWithAux)).trace :=
  (C6_path_resolution netOk3 [] "/w" emptyFS entryWithAux).2.2.1
    "http://host/aux.gguf" rfl (by decide)

/-! ## Claim C8 -/

/-- Claim C8 (amended): a primary-artifact failure that raises (such as a
missing local source) aborts the entry: the run of `download_model_files`
ends with that exception and its trace holds the primary fetcher invocation
only, so the auxiliary fetch is never attempted. A caught FetchError
(transport or HTTP status) does not have this effect — see the
counterexample. Conversely no fetch ever removes or rewrites an existing
file, so an auxiliary failure cannot roll back the fetched primary
artifact. -/
theorem C8_primary_failure_handling (net : String → HttpOutcome)
    (env : List (String × String)) (cwd : String) (fs : FS) (c : GGUFModelsConfig) :
    (∀ (e : PyExc),
      (_download_file net
          (mkdirp fs
            (pathJoin (pathJoin (get_models_directory env cwd) c.model_type.value) c.name))
          c.url
          (pathJoin
            (pathJoin (pathJoin (get_models_directory env cwd) c.model_type.value) c.name)
            (c.name ++ ".gguf"))).result = Except.error e →
      download_model_files net env cwd fs (ModelConfig.gguf c)
        = ⟨(_download_file net
              (mkdirp fs
                (pathJoin (pathJoin (get_models_directory env cwd) c.model_type.value) c.name))
              c.url
              (pathJoin
                (pathJoin (pathJoin (get_models_directory env cwd) c.model_type.value) c.name)
                (c.name ++ ".gguf"))).fs,
            Except.error e,
            IOEvent.fetchCall c.url
                (pathJoin
                  (pathJoin (pathJoin (get_models_directory env cwd) c.model_type.value) c.name)
                  (c.name ++ ".gguf"))
              :: (_download_file net
                  (mkdirp fs
                    (pathJoin (pathJoin (get_models_directory env cwd) c.model_type.value) c.name))
                  c.url
                  (pathJoin
                    (pathJoin (pathJoin (get_models_directory env cwd) c.model_type.value) c.name)
                    (c.name ++ ".gguf"))).trace,
            (_download_file net
                (mkdirp fs
                  (pathJoin (pathJoin (get_models_directory env cwd) c.model_type.value) c.name))
                c.url
                (pathJoin
                  (pathJoin (pathJoin (get_models_directory env cwd) c.model_type.value) c.name)
                  (c.name ++ ".gguf"))).printed⟩)
    ∧ (∀ (u d x y : String) (fs' : FS),
        IOEvent.fetchCall x y ∉ (_download_file net fs' u d).trace)
    ∧ (∀ (fs' : FS) (u d p : String) (bsc : Bytes),
        lookupFile fs' p = some bsc →
        lookupFile (_download_file net fs' u d).fs p = some bsc) := by
  refine ⟨?_, ?_, ?_⟩
  · intro e he
    unfold download_model_files
    dsimp only
    rw [he]
  · intro u d x y fs'
    unfold _download_file
    dsimp only
    repeat' split
    all_goals simp
  · intro fs' u d p bsc h
    exact download_file_keeps_file net fs' u d p bsc h

/-- Witness for C8: a concrete entry whose primary locator is a missing
local source raises before the auxiliary fetch; and an existing file
survives any fetch. -/
theorem C8_witness :
    download_model_files netOk3 [] "/w" emptyFS (ModelConfig.gguf entryMissingSrc)
      = ⟨⟨[], ["/w/models/gguf/m"]⟩, Except.error (PyExc.fileNotFound "/missing.gguf"),
          [IOEvent.fetchCall "file:///missing.gguf" "/w/models/gguf/m/m.gguf"], []⟩
    ∧ lookupFile (_download_file netOk3 fixtureFS "http://host/aux.gguf" "/w/x.gguf").fs
        "/fixtures/model.gguf" = some [9, 9] :=
  ⟨(C8_primary_failure_handling netOk3 [] "/w" emptyFS entryMissingSrc).1
      (PyExc.fileNotFound "/missing.gguf") (by decide),
   (C8_primary_failure_handling netOk3 [] "/w" emptyFS entryMissingSrc).2.2
      fixtureFS "http://host/aux.gguf" "/w/x.gguf" "/fixtures/model.gguf" [9, 9] (by decide)⟩

/-- Counterexample to C8 as stated: the primary fetch suffers a
FetchError(Transport) — the printed line proves it — yet the orchestrator
still attempts the auxiliary artifact's fetch and even materializes it. -/
theorem C8_counterexample :
    (download_model_files netSplit [] "/w" emptyFS (ModelConfig.gguf entryWithAux)).printed
        = ["Error downloading the file: connection reset"]
    ∧ IOEvent.fetchCall "http://host/aux.gguf" "/w/models/gguf/m/mmproj_m.gguf"
        ∈ (download_model_files netSplit [] "/w" emptyFS (ModelConfig.gguf entryWithAux)).trace
    ∧ lookupFile (download_model_files netSplit [] "/w" emptyFS
        (ModelConfig.gguf entryWithAux)).fs "/w/models/gguf/m/mmproj_m.gguf" = some [7] := by
  decide

/-! ## Claim C9 -/

/-- Claim C9 (confirmed): the `--models-dir` option has no effect: two runs
of the download-models command differing only in that option are identical,
and the models root actually used is derived solely from the `MODELS_DIR`
environment variable (defaulting to "models") joined to the current working
directory. -/
theorem C9_models_dir_option_ignored (net : String → HttpOutcome)
    (env : List (String × String)) (cwd : String) (fs : FS)
    (models_file d1 d2 : String) (overwrite : Bool) (raw : Json) :
    download_models net env cwd fs models_file d1 overwrite raw
      = download_models net env cwd fs models_file d2 overwrite raw
    ∧ get_models_directory env cwd
      = pathJoin cwd ((assocLookup env "MODELS_DIR").getD "models") :=
  ⟨rfl, rfl⟩

/-! ## Claim C10 -/

/-- Claim C10 (confirmed): the `--overwrite` flag has no effect on the
download-models command: two runs differing only in the flag are identical,
and a file already present at a destination path is never re-fetched or
overwritten — the fetch is a success no-op leaving the filesystem as is. -/
theorem C10_overwrite_ignored (net : String → HttpOutcome)
    (env : List (String × String)) (cwd : String) (fs : FS)
    (models_file models_dir : String) (raw : Json) :
    download_models net env cwd fs models_file models_dir true raw
      = download_models net env cwd fs models_file models_dir false raw
    ∧ (∀ (url dest : String) (fs' : FS), fsExists fs' dest = true →
        _download_file net fs' url dest = ⟨fs', Except.ok (), [], []⟩) :=
  ⟨rfl, fun url dest fs' h => download_file_skip net fs' url dest h⟩

/-- Witness for C10: a concrete pair of runs differing only in the flag,
and a concrete fetch onto an existing destination file that is a no-op. -/
theorem C10_witness :
    download_models netOk3 [] "/w" fixtureFS "models.json" "models" true rawOneOfEach
      = download_models netOk3 [] "/w" fixtureFS "models.json" "models" false rawOneOfEach
    ∧ _download_file netOk3 fixtureFS "http://host/a.gguf" "/fixtures/model.gguf"
      = ⟨fixtureFS, Except.ok (), [], []⟩ :=
  ⟨(C10_overwrite_ignored netOk3 [] "/w" fixtureFS "models.json" "models" rawOneOfEach).1,
   (C10_overwrite_ignored netOk3 [] "/w" fixtureFS "models.json" "models" rawOneOfEach).2
      "http://host/a.gguf" "/fixtures/model.gguf" fixtureFS (by decide)⟩

/-! ## Claim C1 -/

/-- Counterexample to C1 as stated: running the download-models command on
a manifest with one quantized entry (local fixture source) and one
tensor-weights entry downloads the quantized artifact and then finishes
normally: the run does not fail with NotImplemented, and no tensor-weights
directory is ever created (the only directory created is the quantized
entry's). -/
theorem C1_counterexample :
    (download_models netOk3 [] "/w" fixtureFS "models.json" "models" false rawOneOfEach).result
        = Except.ok ()
    ∧ lookupFile (download_models netOk3 [] "/w" fixtureFS "models.json" "models" false
        rawOneOfEach).fs "/w/models/gguf/alpha/alpha.gguf" = some [9, 9]
    ∧ (download_models netOk3 [] "/w" fixtureFS "models.json" "models" false rawOneOfEach).fs.dirs
        = ["/w/models/gguf/alpha"]
    ∧ (download_models netOk3 [] "/w" fixtureFS "models.json" "models" false rawOneOfEach).trace
        = [IOEvent.fetchCall "file:///fixtures/model.gguf" "/w/models/gguf/alpha/alpha.gguf",
           IOEvent.localRead "/fixtures/model.gguf",
           IOEvent.fileWrite "/w/models/gguf/alpha/alpha.gguf"] := by decide

/-- Claim C1 (amended): the per-entry downloader `download_model_files` on
a tensor-weights entry does resolve the family directory, create it and
raise the NotImplemented signal; but the download-models command iterates
only the quantized collection, so a manifest with one quantized entry
(fetchable local fixture) and one tensor-weights entry downloads the
quantized artifact and completes normally: the tensor-weights entry is
silently skipped, the run never fails with NotImplemented and the
tensor-weights directory is never created. -/
theorem C1_safetensors_entries_skipped
    (net : String → HttpOutcome) (env : List (String × String))
    (cwd nm ds stn std : String) (bs : Bytes)
    (hdest : fsExists
        (mkdirp (fixtureFSWith bs)
          (pathJoin (pathJoin (get_models_directory env cwd) "gguf") nm))
        (pathJoin (pathJoin (pathJoin (get_models_directory env cwd) "gguf") nm)
          (nm ++ ".gguf")) = false) :
    (∀ (fs : FS) (s : SafetensorsModelsConfig),
        download_model_files net env cwd fs (ModelConfig.safetensors s)
          = ⟨mkdirp fs (pathJoin (get_models_directory env cwd) s.model_type.value),
              Except.error (PyExc.notImplementedError
                "Downloading safetensors models at runtime is not yet supported."),
              [], []⟩)
    ∧ download_models net env cwd (fixtureFSWith bs) "models.json" "models" false
        (mkRawManifest nm ds stn std)
      = ⟨writeFile
            (mkdirp (fixtureFSWith bs)
              (pathJoin (pathJoin (get_models_directory env cwd) "gguf") nm))
            (pathJoin (pathJoin (pathJoin (get_models_directory env cwd) "gguf") nm)
              (nm ++ ".gguf"))
            bs,
          Except.ok (),
          [IOEvent.fetchCall "file:///fixtures/model.gguf"
              (pathJoin (pathJoin (pathJoin (get_models_directory env cwd) "gguf") nm)
                (nm ++ ".gguf")),
           IOEvent.localRead "/fixtures/model.gguf",
           IOEvent.fileWrite
              (pathJoin (pathJoin (pathJoin (get_models_directory env cwd) "gguf") nm)
                (nm ++ ".gguf"))],
          []⟩ := by
  have hdf : download_model_files net env cwd (fixtureFSWith bs)
      (ModelConfig.gguf ⟨nm, ds, [], ModelType.gguf, "file:///fixtures/model.gguf", none⟩)
      = ⟨writeFile
            (mkdirp (fixtureFSWith bs)
              (pathJoin (pathJoin (get_models_directory env cwd) "gguf") nm))
            (pathJoin (pathJoin (pathJoin (get_models_directory env cwd) "gguf") nm)
              (nm ++ ".gguf"))
            bs,
          Except.ok (),
          [IOEvent.fetchCall "file:///fixtures/model.gguf"
              (pathJoin (pathJoin (pathJoin (get_models_directory env cwd) "gguf") nm)
                (nm ++ ".gguf")),
           IOEvent.localRead "/fixtures/model.gguf",
           IOEvent.fileWrite
              (pathJoin (pathJoin (pathJoin (get_models_directory env cwd) "gguf") nm)
                (nm ++ ".gguf"))],
          []⟩ := by
    unfold download_model_files
    dsimp only [ModelType.value]
    rw [download_file_local net
      (mkdirp (fixtureFSWith bs)
        (pathJoin (pathJoin (get_models_directory env cwd) "gguf") nm))
      "file:///fixtures/model.gguf"
      (pathJoin (pathJoin (pathJoin (get_models_directory env cwd) "gguf") nm)
        (nm ++ ".gguf"))
      bs hdest rfl rfl]
    rfl
  refine ⟨fun fs s => rfl, ?_⟩
  unfold download_models
  have hv : _load_and_validate_models (mkRawManifest nm ds stn std) = Except.ok () := rfl
  rw [hv]
  dsimp only
  have hg : getGgufsList (mkRawManifest nm ds stn std)
      = [Json.obj [("name", Json.str nm), ("description", Json.str ds),
          ("url", Json.str "file:///fixtures/model.gguf")]] := rfl
  rw [hg]
  unfold download_models_loop
  have hp : parseGGUF (Json.obj [("name", Json.str nm), ("description", Json.str ds),
      ("url", Json.str "file:///fixtures/model.gguf")])
      = some ⟨nm, ds, [], ModelType.gguf, "file:///fixtures/model.gguf", none⟩ := rfl
  rw [hp]
  dsimp only
  rw [hdf]
  dsimp only
  unfold download_models_loop
  dsimp only
  simp

/-- Witness for C1 at a concrete manifest: one quantized entry fetched from
the local fixture and one tensor-weights entry; the run completes normally
with only the quantized artifact downloaded. -/
theorem C1_witness :
    download_models netOk3 [] "/w" (fixtureFSWith [9, 9]) "models.json" "models" false
        (mkRawManifest "alpha" "test model" "beta" "tensor weights")
      = ⟨writeFile (mkdirp (fixtureFSWith [9, 9]) "/w/models/gguf/alpha")
            "/w/models/gguf/alpha/alpha.gguf" [9, 9],
          Except.ok (),
          [IOEvent.fetchCall "file:///fixtures/model.gguf" "/w/models/gguf/alpha/alpha.gguf",
           IOEvent.localRead "/fixtures/model.gguf",
           IOEvent.fileWrite "/w/models/gguf/alpha/alpha.gguf"],
          []⟩ :=
  (C1_safetensors_entries_skipped netOk3 [] "/w" "alpha" "test model" "beta" "tensor weights"
      [9, 9] (by decide)).2
